import Mathlib

/-!
Verification of the loan Program-and-Product rule engine
(`Program_and_Product_Validator/app/lpp.py`): a path-based field resolver,
value normalizers (dates, percent coercion, string normalization, fuzzy
similarity), a trigger-matching predicate language, rule validators, and the
dispatcher that orchestrates them.

The Python runtime values flowing through the engine are modelled by the
`Value` type below (JSON/YAML-style data plus `datetime` objects).  Python
floats are modelled as rationals (`ℚ`); the engine performs no operation on
them whose behaviour differs observably from exact arithmetic other than
rounding at extreme precision, which no rule exercises.  The fuzzy string
similarity (`fuzzy_ratio`) delegates to an external library (rapidfuzz, with
a difflib fallback); it is kept as an explicit function parameter `fz`
everywhere, so every theorem holds for either implementation.
-/

namespace LppSpec

/-- A calendar date (the engine only ever reads `year` and `month` of a parsed
`datetime`; `day` is carried for faithfulness of parsing). -/
structure Date where
  year : Int
  month : Int
  day : Int
deriving DecidableEq, Repr

/-- Python values as they occur in the evaluation context, rule configuration
and trigger expressions: `None`, booleans, ints, floats (as `ℚ`), strings,
`datetime` objects, dicts and lists. -/
inductive Value where
  | null : Value
  | bool (b : Bool) : Value
  | int (n : Int) : Value
  | num (q : ℚ) : Value
  | str (s : String) : Value
  | date (d : Date) : Value
  | obj (fields : List (String × Value)) : Value
  | list (elems : List Value) : Value
deriving Repr

/-- `v is None` in Python. -/
def isNull : Value → Bool
  | .null => true
  | _ => false

/-- Python truthiness (`bool(v)`) for the modelled values. -/
def truthy : Value → Bool
  | .null => false
  | .bool b => b
  | .int n => n != 0
  | .num q => q != 0
  | .str s => s != ""
  | .date _ => true
  | .obj [] => false
  | .obj (_ :: _) => true
  | .list [] => false
  | .list (_ :: _) => true

/-- `a or b` in Python: `a` if truthy, else `b`. -/
def pyOr (a b : Value) : Value := if truthy a then a else b

/-- First-match lookup in an association list (Python `dict.get`). -/
def dictGet {α : Type} : List (String × α) → String → Option α
  | [], _ => none
  | (k, v) :: rest, key => if k = key then some v else dictGet rest key

/-- Python `d[k] = v`: replace in place if the key exists, else append. -/
def dictInsert {α : Type} : List (String × α) → String → α → List (String × α)
  | [], k, v => [(k, v)]
  | (k', v') :: rest, k, v =>
      if k' = k then (k, v) :: rest else (k', v') :: dictInsert rest k v

/-- Decimal rendering of a rational, used only for Python's `str()` of float
values.  For integral values Python prints a trailing `.0`; non-integral
values are rendered as `num/den` (an approximation of Python's shortest
round-trip float repr — no rule or claim compares the string form of a
non-integral number). -/
def ratStr (q : ℚ) : String :=
  if q.den = 1 then toString q.num ++ ".0" else toString q.num ++ "/" ++ toString q.den

/-- Python `str(v)`.  The repr of dicts/lists/datetimes is approximated by a
placeholder; the engine only takes `str()` of scalars on every path a claim
exercises. -/
def pyStr : Value → String
  | .null => "None"
  | .bool b => if b then "True" else "False"
  | .int n => toString n
  | .num q => ratStr q
  | .str s => s
  | .date _ => "<datetime>"
  | .obj _ => "<dict>"
  | .list _ => "<list>"

/-! Structural models of the Python string primitives the engine uses
(`str.strip`, `str.lower`, `str.split`, `startswith`, slicing).  They are
defined over the character list of the string so that concrete runs reduce
inside the kernel. -/

/-- Python `s.strip()`: drop whitespace from both ends. -/
def pyStrip (s : String) : String :=
  String.mk (((s.data.dropWhile Char.isWhitespace).reverse.dropWhile
    Char.isWhitespace).reverse)

/-- Python `s.lower()` (ASCII). -/
def pyLower (s : String) : String := String.mk (s.data.map Char.toLower)

/-- `s.strip().lower()`, the normal form used all over the validators. -/
def pyStripLower (s : String) : String := pyLower (pyStrip s)

/-- Split a character list on a separator character (Python `str.split` with
a one-character separator: empty input gives one empty group, and separators
at the ends give empty groups). -/
def splitChars (c : Char) : List Char → List (List Char)
  | [] => [[]]
  | ch :: rest =>
    if ch == c then [] :: splitChars c rest
    else
      match splitChars c rest with
      | grp :: gs => (ch :: grp) :: gs
      | [] => [[ch]]

/-- Python `s.split(c)` for a one-character separator. -/
def pySplit (s : String) (c : Char) : List String :=
  (splitChars c s.data).map String.mk

/-- `pat` is a prefix of `s` (character lists). -/
def charsHavePfx : List Char → List Char → Bool
  | _, [] => true
  | [], _ :: _ => false
  | a :: as, b :: bs => a == b && charsHavePfx as bs

/-- Python `s.startswith(pfx)`. -/
def pyStartsWith (s pfx : String) : Bool := charsHavePfx s.data pfx.data

/-- Python `s[n:]`. -/
def pyDrop (s : String) (n : Nat) : String := String.mk (s.data.drop n)

/-- Value of a run of decimal digits. -/
def digitsToNat (cs : List Char) : Nat :=
  cs.foldl (fun a c => a * 10 + (c.toNat - 48)) 0

/-- All-digit string of length between 1 and `maxLen`, as a number. -/
def numField (maxLen : Nat) (s : String) : Option Nat :=
  let cs := s.data
  if cs ≠ [] ∧ cs.length ≤ maxLen ∧ cs.all Char.isDigit then some (digitsToNat cs)
  else none

/-- `float(s)` on a string: optional surrounding whitespace, optional sign,
digits with an optional single decimal point (at least one digit overall).
Exponent notation and `inf`/`nan` are not modelled — no configuration or
claim uses them. -/
def parseFloat (s : String) : Option ℚ :=
  let cs := (pyStrip s).data
  let (sign, cs) : ℚ × List Char :=
    match cs with
    | '-' :: r => (-1, r)
    | '+' :: r => (1, r)
    | r => (1, r)
  let intPart := cs.takeWhile Char.isDigit
  let rest := cs.dropWhile Char.isDigit
  match rest with
  | [] => if intPart = [] then none else some (sign * digitsToNat intPart)
  | '.' :: frac =>
      if frac.all Char.isDigit ∧ (intPart ≠ [] ∨ frac ≠ []) then
        some (sign * ((digitsToNat intPart : ℚ) +
          (digitsToNat frac : ℚ) / (10 ^ frac.length)))
      else none
  | _ => none

/-- `int(s)` on a string: optional whitespace, optional sign, digits only. -/
def parseIntString (s : String) : Option Int :=
  let cs := (pyStrip s).data
  let (sign, cs) : Int × List Char :=
    match cs with
    | '-' :: r => (-1, r)
    | '+' :: r => (1, r)
    | r => (1, r)
  if cs ≠ [] ∧ cs.all Char.isDigit then some (sign * digitsToNat cs) else none

/-- `float(x)` on a value: numbers and bools convert, numeric strings parse,
everything else (`None` included) raises — modelled as `none`. -/
def pyFloat : Value → Option ℚ
  | .int n => some n
  | .num q => some q
  | .bool b => some (if b then 1 else 0)
  | .str s => parseFloat s
  | _ => none

/-- Truncation of a rational toward zero (Python `int(float)`). -/
def ratTrunc (q : ℚ) : Int := if 0 ≤ q then ⌊q⌋ else -⌊-q⌋

/-- `int(x)` on a value. -/
def pyInt : Value → Option Int
  | .int n => some n
  | .num q => some (ratTrunc q)
  | .bool b => some (if b then 1 else 0)
  | .str s => parseIntString s
  | _ => none

/-- `normalize_string` (lpp.py line 88): `None` becomes `""`; otherwise
lower-case every alphanumeric-or-whitespace character, drop the rest, and
strip surrounding whitespace. -/
def normalize_string (v : Value) : String :=
  if isNull v then ""
  else
    pyStrip (String.mk (((pyStr v).data.filter
      (fun ch => ch.isAlphanum || ch.isWhitespace)).map Char.toLower))

/-- `fuzzy_ratio` (lpp.py line 76): 0 when either argument is `None`; else
the library similarity score of the two values' string forms.  The score
function `fz` is a parameter (rapidfuzz `token_set_ratio` or the difflib
fallback). -/
def fuzzyScore (fz : String → String → Nat) (a b : Value) : Nat :=
  if isNull a || isNull b then 0 else fz (pyStr a) (pyStr b)

/-! ### Date utilities (lpp.py lines 97-137) -/

/-- Gregorian leap year. -/
def isLeap (y : Int) : Bool := (y % 4 == 0 && y % 100 != 0) || y % 400 == 0

/-- Days in a calendar month. -/
def daysInMonth (y m : Int) : Int :=
  if m = 2 then (if isLeap y then 29 else 28)
  else if m = 4 ∨ m = 6 ∨ m = 9 ∨ m = 11 then 30
  else 31

/-- A candidate (year, month, day) as a `datetime.date`, validated the way
`strptime` validates (real calendar dates, years 1-9999). -/
def mkDate (y m d : Nat) : Option Date :=
  if 1 ≤ y ∧ y ≤ 9999 ∧ 1 ≤ m ∧ m ≤ 12 ∧ 1 ≤ d ∧ (d : Int) ≤ daysInMonth y m then
    some ⟨y, m, d⟩
  else none

/-- `strptime` with format month-day-year on already-split components. -/
def tryMDY (a b c : String) : Option Date := do
  let m ← numField 2 a
  let d ← numField 2 b
  let y ← numField 4 c
  mkDate y m d

/-- `strptime` with format year-month-day on already-split components. -/
def tryYMD (a b c : String) : Option Date := do
  let y ← numField 4 a
  let m ← numField 2 b
  let d ← numField 2 c
  mkDate y m d

/-- `strptime` with format day-month-year on already-split components. -/
def tryDMY (a b c : String) : Option Date := do
  let d ← numField 2 a
  let m ← numField 2 b
  let y ← numField 4 c
  mkDate y m d

/-- The `SUPPORTED_FORMATS` cascade of `parse_date`: `%m-%d-%Y`, `%Y-%m-%d`,
`%d-%m-%Y`, `%m/%d/%Y`, `%Y/%m/%d`, tried in order.  The final permissive
`dateutil` free-text fallback is not modelled (treated as unparseable); every
date any claim or configuration exercises is in one of the explicit
formats. -/
def parseDateString (s : String) : Option Date :=
  match pySplit s '-' with
  | [a, b, c] => tryMDY a b c <|> tryYMD a b c <|> tryDMY a b c
  | _ =>
    match pySplit s '/' with
    | [a, b, c] => tryMDY a b c <|> tryYMD a b c
    | _ => none

/-- `parse_date` (lpp.py line 105): falsy input is unparseable, a `datetime`
is returned unchanged, anything else is stringified, stripped and run through
the format cascade.  Never raises: failure is `none`. -/
def parse_date (v : Value) : Option Date :=
  if truthy v = false then none
  else
    match v with
    | .date d => some d
    | _ => parseDateString (pyStrip (pyStr v))

/-- Calendar-month distance: `abs((d2.year - d1.year) * 12 + (d2.month -
d1.month))` — the body of `months_between` once both dates are in hand. -/
def monthsDiff (a b : Date) : Nat :=
  ((b.year - a.year) * 12 + (b.month - a.month)).natAbs

/-- `months_between(d1, d2)` (lpp.py line 121).  `d1` is parsed and a parse
failure raises `ValueError` (modelled as `Except.error`).  An explicitly null
`d2` selects `datetime.now()` (the `now` parameter); otherwise `d2` is parsed
and a parse failure raises. -/
def months_between (now : Date) (d1 d2 : Value) : Except Unit Nat :=
  match parse_date d1 with
  | none => .error ()
  | some a =>
    match (if isNull d2 then some now else parse_date d2) with
    | none => .error ()
    | some b => .ok (monthsDiff a b)

/-! ### Path resolver (lpp.py lines 179-196) -/

/-- One field-path configuration entry: a dotted path into the section's raw
data and a default used when the path misses (`default` absent in the
configuration is the same as a configured null default). -/
structure FieldCfg where
  path : String
  default : Value

/-- The `fields` table of `ppv.yaml`: section name → field name → entry. -/
abbrev FieldsCfg : Type := List (String × List (String × FieldCfg))

/-- The evaluation context: section name → raw document value. -/
abbrev Context : Type := List (String × Value)

/-- The dotted-path walk of `PathResolver.resolve`: at each segment the
current value must be a dict containing the key, else the configured default
is returned; a full walk ending on a present null also yields the default. -/
def walkPath : Value → List String → Value → Value
  | cur, [], dflt => if isNull cur then dflt else cur
  | cur, p :: rest, dflt =>
    match cur with
    | .obj flds =>
      match dictGet flds p with
      | some v => walkPath v rest dflt
      | none => dflt
    | _ => dflt

/-- `self.fields.get(section, {}).get(name)`: the path configuration bound
to a (section, field-name) pair, if any. -/
def fieldCfgOf (cfg : FieldsCfg) (section_ name : String) : Option FieldCfg :=
  match dictGet cfg section_ with
  | none => none
  | some sec => dictGet sec name

/-- `context.get(section)`, with a missing section read as `None`. -/
def sectionOf (ctx : Context) (section_ : String) : Value :=
  match dictGet ctx section_ with
  | some v => v
  | none => .null

/-- `PathResolver.resolve(context, section, name)` (lpp.py line 185): no
configuration for the pair returns `None`; otherwise the configured dotted
path is walked into `context[section]` (a missing section starts the walk at
`None`).  Total: absence and type mismatches are miss cases, never errors. -/
def resolve (cfg : FieldsCfg) (ctx : Context) (section_ name : String) : Value :=
  match fieldCfgOf cfg section_ name with
  | none => .null
  | some fc => walkPath (sectionOf ctx section_) (pySplit fc.path '.') fc.default

/-- Successful partial traversal of a dotted-path prefix (used to state where
a walk fails): `some v` means every segment of the prefix was found in a
dict, landing on `v` (possibly a present null). -/
def walkPrefix : Value → List String → Option Value
  | cur, [] => some cur
  | cur, p :: rest =>
    match cur with
    | .obj flds =>
      match dictGet flds p with
      | some v => walkPrefix v rest
      | none => none
    | _ => none

/-! ### Verdicts and rules (lpp.py lines 200-211 and rule configuration) -/

/-- A validator verdict: rule identifier, status string, message, and the
details mapping echoing the inputs that drove the decision. -/
structure Verdict where
  rule_id : String
  status : String
  message : String
  details : List (String × Value)

/-- The right-hand side a trigger key maps to: a list of acceptable literal
values, or (for the reserved key `"or"`) a list of sub-trigger mappings. -/
inductive TrigRhs where
  | vals : List Value → TrigRhs
  | subs : List (List (String × TrigRhs)) → TrigRhs

/-- A trigger mapping, in dict insertion order. -/
abbrev Trigger : Type := List (String × TrigRhs)

/-- A rule definition from the `rules` list of `ppv.yaml`.  `params` and
`thresholds` hold numeric configuration (every parameter the validators read
is a number); an absent `alert_message`/`condition_message` is the empty
string (observationally identical to Python's `rule.get(..., "")`); an
absent trigger is the empty mapping (`rule.get("trigger", {})`). -/
structure Rule where
  id : String
  validator : String
  trigger : Trigger
  params : List (String × ℚ)
  thresholds : List (String × ℚ)
  alert_message : String
  condition_message : String

/-- `rule.get('params', {}).get(key, dflt)`. -/
def paramD (rule : Rule) (key : String) (dflt : ℚ) : ℚ :=
  match dictGet rule.params key with
  | some q => q
  | none => dflt

/-- The message fallback of `alert_result`/`condition_result`: a supplied
falsy message (empty or `None`) falls back to the rule's configured one. -/
def msgOr (m : Option String) (dflt : String) : String :=
  match m with
  | some s => if s = "" then dflt else s
  | none => dflt

/-- `BaseValidator.pass_result`. -/
def passResult (rule : Rule) (details : List (String × Value)) : Verdict :=
  ⟨rule.id, "PASS", "", details⟩

/-- `BaseValidator.alert_result`. -/
def alertResult (rule : Rule) (message : Option String)
    (details : List (String × Value)) : Verdict :=
  ⟨rule.id, "ALERT", msgOr message rule.alert_message, details⟩

/-- `BaseValidator.condition_result`. -/
def conditionResult (rule : Rule) (message : Option String)
    (details : List (String × Value)) : Verdict :=
  ⟨rule.id, "CONDITION", msgOr message rule.condition_message, details⟩

/-- `BaseValidator.not_applicable_result`. -/
def notApplicableResult (rule : Rule) (details : List (String × Value)) : Verdict :=
  ⟨rule.id, "NOT_APPLICABLE", "", details⟩

/-! ### Validators (lpp.py lines 216-543) -/

/-- `pat` occurs as a contiguous substring of `s` (character lists). -/
def charsContain (pat : List Char) : List Char → Bool
  | [] => pat.isEmpty
  | c :: rest => charsHavePfx (c :: rest) pat || charsContain pat rest

/-- Python `pat in s` substring test. -/
def strContains (s pat : String) : Bool := charsContain pat.data s.data

/-- The `to_pct` closure of `LTVValidator.evaluate` (lpp.py line 223): `None`
in, `None` out; otherwise parse as a float, scaling by 100 when the value is
`<= 1`; parse failure yields `None`. -/
def to_pct (x : Value) : Option ℚ :=
  if isNull x then none
  else
    match pyFloat x with
    | none => none
    | some v => some (if v ≤ 1 then v * 100 else v)

/-- A numeric configuration dict as a `Value` (for the details mapping). -/
def encodeRatDict (d : List (String × ℚ)) : Value :=
  .obj (d.map fun kv => (kv.1, .num kv.2))

/-- `x is not None and t is not None and x > t` — one threshold test of the
LTV validator. -/
def thresholdExceeded (x t : Option ℚ) : Bool :=
  match x, t with
  | some v, some tv => tv < v
  | _, _ => false

/-- `LTVValidator.evaluate`. -/
def ltvEval (cfg : FieldsCfg) (rule : Rule) (ctx : Context) : Verdict :=
  let ltv := resolve cfg ctx "los" "ltv"
  let cltv := resolve cfg ctx "los" "cltv"
  let hcltv := resolve cfg ctx "los" "hcltv"
  let details := [("ltv", ltv), ("cltv", cltv), ("hcltv", hcltv),
    ("thresholds", encodeRatDict rule.thresholds)]
  let l := to_pct ltv
  let c := to_pct cltv
  let h := to_pct hcltv
  if rule.thresholds ≠ [] then
    if thresholdExceeded l (dictGet rule.thresholds "ltv") then alertResult rule none details
    else if thresholdExceeded c (dictGet rule.thresholds "cltv") then alertResult rule none details
    else if thresholdExceeded h (dictGet rule.thresholds "hcltv") then alertResult rule none details
    else passResult rule details
  else passResult rule details

/-- `DTIValidator.evaluate`. -/
def dtiEval (cfg : FieldsCfg) (rule : Rule) (ctx : Context) : Verdict :=
  let dti := resolve cfg ctx "los" "dti"
  let limit := paramD rule "dti_limit" 50
  let details := [("dti", dti), ("limit", .num limit)]
  match pyFloat dti with
  | none => notApplicableResult rule []
  | some d => if limit < d then alertResult rule none details else passResult rule details

/-- `OccupancyValidator.evaluate`. -/
def occupancyEval (cfg : FieldsCfg) (rule : Rule) (ctx : Context) : Verdict :=
  let prop := resolve cfg ctx "los" "property_will_be"
  let details := [("property_will_be", prop)]
  let isEmptyStr : Bool := match prop with
    | .str "" => true
    | _ => false
  if isNull prop || isEmptyStr then notApplicableResult rule []
  else if pyStripLower (pyStr prop) ≠ "primary" then alertResult rule none details
  else passResult rule details

/-- `SecondHomeValidator.evaluate`. -/
def secondHomeEval (cfg : FieldsCfg) (rule : Rule) (ctx : Context) : Verdict :=
  let noUnits := resolve cfg ctx "los" "no_units"
  let details := [("no_units", noUnits)]
  match pyInt noUnits with
  | none => notApplicableResult rule []
  | some n => if n ≠ 1 then alertResult rule none details else passResult rule details

/-- `InvestmentValidator.evaluate`. -/
def investmentEval (cfg : FieldsCfg) (rule : Rule) (ctx : Context) : Verdict :=
  let loanProg := resolve cfg ctx "los" "loan_program_detail"
  let propType := resolve cfg ctx "los" "property_type"
  let details := [("loan_program_detail", loanProg), ("property_type", propType)]
  if truthy loanProg && strContains (pyLower (pyStr loanProg)) "manufactured" then
    alertResult rule none details
  else if truthy propType && strContains (pyLower (pyStr propType)) "manufactured" then
    alertResult rule none details
  else passResult rule details

/-- `CreditScoreValidator.evaluate`. -/
def creditScoreEval (cfg : FieldsCfg) (rule : Rule) (ctx : Context) : Verdict :=
  let score := resolve cfg ctx "los" "average_representative_credit_score"
  let details := [("score", score)]
  match pyFloat score with
  | none => notApplicableResult rule []
  | some s => if s ≤ 620 then alertResult rule none details else passResult rule details

/-- `GiftValidator.evaluate` (the resolved `cash_to_borrower` and
`loan_program_detail` are read and discarded by the source). -/
def giftEval (cfg : FieldsCfg) (rule : Rule) (ctx : Context) : Verdict :=
  let giftAmount := resolve cfg ctx "los" "gift_amount"
  let details := [("gift_amount", giftAmount)]
  let g : ℚ :=
    if isNull giftAmount then 0
    else match pyFloat giftAmount with
      | some v => v
      | none => 0
  if 0 < g then alertResult rule none details else passResult rule details

/-- `context.get("credit_report", {}).get("Tradelines")`.  A present
non-dict `credit_report` section raises in the source and is not modelled. -/
def tradelinesRaw (ctx : Context) : Value :=
  match dictGet ctx "credit_report" with
  | some (.obj flds) =>
    (match dictGet flds "Tradelines" with
     | some v => v
     | none => .null)
  | _ => .null

/-- `t.get(k)` with a null default; `.get` on a non-dict raises in the
source and is not modelled. -/
def objGetD (t : Value) (k : String) : Value :=
  match t with
  | .obj flds =>
    (match dictGet flds k with
     | some v => v
     | none => .null)
  | _ => .null

/-- The `details.update({...})` performed for each account-number match in
the cashout-seasoning tradeline loop. -/
def updMatchDetails (det : List (String × Value)) (accLast4 : String)
    (creditor : Value) (score : Nat) : List (String × Value) :=
  dictInsert (dictInsert (dictInsert det "matched_account_last4" (.str accLast4))
    "creditor_name" creditor) "fuzzy_score" (.int score)

/-- Python `s[-4:]`. -/
def strLast4 (s : String) : String := String.mk (s.data.reverse.take 4).reverse

/-- `t.get("Creditor Account Number") or t.get("Creditor_Account_Number") or ""`. -/
def tlAccNo (t : Value) : Value :=
  pyOr (pyOr (objGetD t "Creditor Account Number")
    (objGetD t "Creditor_Account_Number")) (.str "")

/-- `str(acc_no)[-4:] if acc_no else ""`. -/
def tlAccLast4 (t : Value) : String :=
  if truthy (tlAccNo t) then strLast4 (pyStr (tlAccNo t)) else ""

/-- `t.get("Creditor Name") or t.get("Creditor_Name") or ""`. -/
def tlCreditor (t : Value) : Value :=
  pyOr (pyOr (objGetD t "Creditor Name") (objGetD t "Creditor_Name")) (.str "")

/-- `last4 and acc_last4 and last4 == acc_last4`: the account-number match
condition of the tradeline loop (both last-4s must be non-empty). -/
def tlMatches (last4 : String) (t : Value) : Bool :=
  last4 != "" && tlAccLast4 t != "" && last4 == tlAccLast4 t

/-- The tradeline loop of `CashoutSeasoningValidator.evaluate`: walk the
tradelines in order; each tradeline whose truthy account number shares its
last four characters with the (truthy) liability account number has its
creditor name scored against the liability name, updating the details; the
first such tradeline scoring at least 70 is accepted. -/
def findReportedMortgage (fz : String → String → Nat) (last4 : String) (liabName : Value) :
    List Value → List (String × Value) → Option Value × List (String × Value)
  | [], det => (none, det)
  | t :: rest, det =>
    if tlMatches last4 t then
      let score := fuzzyScore fz (tlCreditor t) liabName
      let det' := updMatchDetails det (tlAccLast4 t) (tlCreditor t) score
      if 70 ≤ score then (some t, det')
      else findReportedMortgage fz last4 liabName rest det'
    else findReportedMortgage fz last4 liabName rest det

/-- `resolver.resolve(context, 'los', 'liabilities_account_number') or ""`. -/
def cashoutLiabAcc (cfg : FieldsCfg) (ctx : Context) : Value :=
  pyOr (resolve cfg ctx "los" "liabilities_account_number") (.str "")

/-- `resolver.resolve(context, 'los', 'liabilities_name') or ""`. -/
def cashoutLiabName (cfg : FieldsCfg) (ctx : Context) : Value :=
  pyOr (resolve cfg ctx "los" "liabilities_name") (.str "")

/-- `str(liabilities_acc)[-4:] if liabilities_acc else ""`. -/
def cashoutLast4 (cfg : FieldsCfg) (ctx : Context) : String :=
  if truthy (cashoutLiabAcc cfg ctx) then strLast4 (pyStr (cashoutLiabAcc cfg ctx)) else ""

/-- A single tradeline dict is wrapped into a one-element list; a list is
iterated as is.  (A truthy scalar here raises in the source and is not
modelled.) -/
def cashoutTradelines (ctx : Context) : List Value :=
  match tradelinesRaw ctx with
  | .obj flds => [.obj flds]
  | .list l => l
  | _ => []

/-- The initial details mapping of the cashout-seasoning validator. -/
def cashoutDetails0 (cfg : FieldsCfg) (ctx : Context) : List (String × Value) :=
  [("liabilities_account_number", cashoutLiabAcc cfg ctx),
   ("liabilities_name", cashoutLiabName cfg ctx),
   ("estimated_closing_date", resolve cfg ctx "los" "estimated_closing_date")]

/-- The tradeline accepted by the loop (its `matched` variable), if any. -/
def cashoutAccepted (fz : String → String → Nat) (cfg : FieldsCfg) (ctx : Context) :
    Option Value :=
  (findReportedMortgage fz (cashoutLast4 cfg ctx) (cashoutLiabName cfg ctx)
    (cashoutTradelines ctx) (cashoutDetails0 cfg ctx)).1

/-- `CashoutSeasoningValidator.evaluate` (lpp.py line 319). -/
def cashoutSeasoningEval (fz : String → String → Nat) (cfg : FieldsCfg)
    (rule : Rule) (ctx : Context) : Verdict :=
  let estClose := resolve cfg ctx "los" "estimated_closing_date"
  if truthy (tradelinesRaw ctx) = false then notApplicableResult rule []
  else
    match findReportedMortgage fz (cashoutLast4 cfg ctx) (cashoutLiabName cfg ctx)
        (cashoutTradelines ctx) (cashoutDetails0 cfg ctx) with
    | (none, det) =>
      alertResult rule (some "The mortgage being paid off is not reported on credit report  please review reasoning requirement.") det
    | (some t, det) =>
      let dateOpened := objGetD t "Date_Opened"
      if truthy dateOpened = false || truthy estClose = false then notApplicableResult rule []
      else
        match parse_date dateOpened, parse_date estClose with
        | some dOpen, some dClose =>
          if monthsDiff dOpen dClose ≤ 12 then
            alertResult rule (some "The seasoning requirement for cash out refinance is not met, review and proceed") det
          else passResult rule det
        | _, _ => notApplicableResult rule []

/-- Re-encode a `parse_date` result as the value handed to `months_between`
(the source passes the `datetime`-or-`None` result straight through). -/
def optDateVal : Option Date → Value
  | some d => .date d
  | none => .null

/-- `TitleValidator.evaluate`. -/
def titleEval (now : Date) (cfg : FieldsCfg) (rule : Rule) (ctx : Context) : Verdict :=
  let chain := resolve cfg ctx "title" "chain_title_date"
  let close := resolve cfg ctx "los" "estimated_closing_date"
  let details := [("chain_title_date", chain), ("estimated_closing_date", close)]
  if truthy chain = false || truthy close = false then notApplicableResult rule []
  else
    match months_between now (optDateVal (parse_date chain)) (optDateVal (parse_date close)) with
    | .error _ => notApplicableResult rule []
    | .ok months =>
      if (months : ℚ) < paramD rule "min_months" 6 then alertResult rule none details
      else passResult rule details

/-- The address gate of `FraudValidator.evaluate`: all four drive-report
address components must equal the normalized LOS subject-address
components. -/
def fraudAddrMatch (cfg : FieldsCfg) (ctx : Context) : Bool :=
  normalize_string (resolve cfg ctx "drive_report" "drive_street")
      == normalize_string (resolve cfg ctx "los" "urla_lender_subject_street")
    && normalize_string (resolve cfg ctx "drive_report" "drive_city")
      == normalize_string (resolve cfg ctx "los" "urla_lender_subject_city")
    && normalize_string (resolve cfg ctx "drive_report" "drive_state")
      == normalize_string (resolve cfg ctx "los" "urla_lender_subject_state")
    && normalize_string (resolve cfg ctx "drive_report" "drive_unit")
      == normalize_string (resolve cfg ctx "los" "urla_lender_subject_unit")

/-- The details mapping built by `FraudValidator.evaluate`. -/
def fraudDetails (cfg : FieldsCfg) (ctx : Context) : List (String × Value) :=
  [("drive_addr", .obj [("street", resolve cfg ctx "drive_report" "drive_street"),
      ("city", resolve cfg ctx "drive_report" "drive_city"),
      ("state", resolve cfg ctx "drive_report" "drive_state"),
      ("unit", resolve cfg ctx "drive_report" "drive_unit")]),
   ("subject_addr", .obj [("street", resolve cfg ctx "los" "urla_lender_subject_street"),
      ("city", resolve cfg ctx "los" "urla_lender_subject_city"),
      ("state", resolve cfg ctx "los" "urla_lender_subject_state"),
      ("unit", resolve cfg ctx "los" "urla_lender_subject_unit")])]

/-- The date portion of `FraudValidator.evaluate`, reached once the address
gate passes: falsy fraud or closing date → not applicable; then
`months_between(parse_date(fraud_date), parse_date(est_close))` with the
exception caught as not applicable, alerting when the months fall below
`max_months` (default 6). -/
def fraudDatesDecide (now : Date) (cfg : FieldsCfg) (rule : Rule) (ctx : Context)
    (details : List (String × Value)) : Verdict :=
  let fraudDate := resolve cfg ctx "drive_report" "fraud_recorded_date"
  let close := resolve cfg ctx "los" "estimated_closing_date"
  if truthy fraudDate = false || truthy close = false then notApplicableResult rule []
  else
    match months_between now (optDateVal (parse_date fraudDate)) (optDateVal (parse_date close)) with
    | .error _ => notApplicableResult rule []
    | .ok months =>
      if (months : ℚ) < paramD rule "max_months" 6 then alertResult rule none details
      else passResult rule details

/-- `FraudValidator.evaluate` (lpp.py line 403). -/
def fraudEval (now : Date) (cfg : FieldsCfg) (rule : Rule) (ctx : Context) : Verdict :=
  let details := fraudDetails cfg ctx
  if fraudAddrMatch cfg ctx = false then notApplicableResult rule []
  else fraudDatesDecide now cfg rule ctx details

/-- `AppraisalPriorSaleValidator.evaluate`. -/
def appraisalPriorSaleEval (now : Date) (cfg : FieldsCfg) (rule : Rule) (ctx : Context) : Verdict :=
  let priorSale := resolve cfg ctx "appraisal" "prior_sale_date"
  let close := resolve cfg ctx "los" "estimated_closing_date"
  let details := [("prior_sale_date", priorSale), ("estimated_closing_date", close)]
  if truthy priorSale = false || truthy close = false then notApplicableResult rule []
  else
    match months_between now (optDateVal (parse_date priorSale)) (optDateVal (parse_date close)) with
    | .error _ => notApplicableResult rule []
    | .ok months =>
      if (months : ℚ) < paramD rule "min_months" 6 then alertResult rule none details
      else passResult rule details

/-- `LoanProgramValidator.evaluate`. -/
def loanProgramEval (cfg : FieldsCfg) (rule : Rule) (ctx : Context) : Verdict :=
  let amort := resolve cfg ctx "los" "amortization_type"
  let details := [("amortization_type", amort)]
  if truthy amort = false then notApplicableResult rule []
  else if !(["fixed rate", "fixed"].contains (pyStripLower (pyStr amort))) then
    alertResult rule none details
  else passResult rule details

/-- `CashbackValidator.evaluate`. -/
def cashbackEval (cfg : FieldsCfg) (rule : Rule) (ctx : Context) : Verdict :=
  let cashFrom := resolve cfg ctx "los" "cash_from_borrower"
  let cashTo := resolve cfg ctx "los" "cash_to_borrower"
  let loanAmount := resolve cfg ctx "los" "loan_amount"
  let details := [("cash_from", cashFrom), ("cash_to", cashTo), ("loan_amount", loanAmount)]
  match pyFloat loanAmount with
  | none => notApplicableResult rule []
  | some loan =>
    let negs := [cashFrom, cashTo].filterMap fun v =>
      if isNull v then none
      else match pyFloat v with
        | some x => if x < 0 then some (-x) else none
        | none => none
    if negs = [] then notApplicableResult rule details
    else
      let maxAllowed := min (paramD rule "absolute_limit" 2000)
        (loan * paramD rule "percent_limit" (1 / 100))
      if negs.any (fun amt => maxAllowed < amt) then alertResult rule none details
      else passResult rule details

/-- `cert and str(cert).strip().lower() in ['yes', 'y', 'true']`. -/
def certAffirmative (cert : Value) : Bool :=
  truthy cert && ["yes", "y", "true"].contains (pyStripLower (pyStr cert))

/-- `HomebuyerProgramValidator.evaluate`. -/
def homebuyerProgramEval (cfg : FieldsCfg) (rule : Rule) (ctx : Context) : Verdict :=
  let cert := resolve cfg ctx "los" "homebuyer_education_certificate"
  let details := [("homebuyer_education_certificate", cert)]
  if certAffirmative cert then passResult rule details
  else conditionResult rule none details

/-- `HomebuyerLTVValidator.evaluate`. -/
def homebuyerLtvEval (cfg : FieldsCfg) (rule : Rule) (ctx : Context) : Verdict :=
  let ltv := resolve cfg ctx "los" "ltv"
  let cert := resolve cfg ctx "los" "homebuyer_education_certificate"
  let details := [("ltv", ltv), ("homebuyer_education_certificate", cert)]
  match pyFloat ltv with
  | none => notApplicableResult rule []
  | some lp0 =>
    let lp := if lp0 ≤ 1 then lp0 * 100 else lp0
    if paramD rule "max_ltv" 95 < lp then
      if certAffirmative cert then passResult rule details
      else conditionResult rule none details
    else passResult rule details

/-- `IncomeValidator.evaluate`. -/
def incomeEval (cfg : FieldsCfg) (rule : Rule) (ctx : Context) : Verdict :=
  let income := resolve cfg ctx "los" "total_income"
  let amiParam : Value :=
    match dictGet rule.params "area_median_income" with
    | some q => .num q
    | none => .null
  let ami := pyOr (resolve cfg ctx "los" "area_median_income") amiParam
  let details := [("total_income", income), ("area_median_income", ami)]
  match pyFloat income, pyFloat ami with
  | some inc, some amiV =>
    if amiV < inc then alertResult rule none details else passResult rule details
  | _, _ => notApplicableResult rule []

/-- `LienPayoffValidator.evaluate`. -/
def lienPayoffEval (cfg : FieldsCfg) (rule : Rule) (ctx : Context) : Verdict :=
  let paidOff := resolve cfg ctx "los" "liabilities_will_be_paid_off"
  let accType := resolve cfg ctx "los" "liabilities_account_type"
  let liabNames := pyOr (resolve cfg ctx "los" "liabilities_name") (.str "")
  let details := [("paid_off", paidOff), ("account_type", accType),
    ("liabilities_name", liabNames)]
  if ["yes", "true"].contains (pyStripLower (pyStr paidOff)) then
    let count : Nat :=
      match liabNames with
      | .str s =>
        if pyStrip s ≠ "" then ((pySplit s ',').filter (fun x => pyStrip x ≠ "")).length else 0
      | _ => 0
    if 1 < count then alertResult rule none details
    else if truthy accType = false || !(strContains (pyLower (pyStr accType)) "mortgage") then
      alertResult rule none details
    else passResult rule details
  else passResult rule details

/-! ### Trigger matcher and dispatcher (lpp.py lines 548-613) -/

/-- `RuleDispatcher._norm`: `str(v).strip().lower()` with `None` as `""`. -/
def pyNorm (v : Value) : String :=
  if isNull v then "" else pyStripLower (pyStr v)

/-- `RuleDispatcher._match_value` (lpp.py line 580): a string expected value
starting with `GT` compares numerically — the actual is parsed as a float,
scaled by 100 when `<= 1`, and must strictly exceed the number after the
sentinel; any parse failure is a non-match.  Every other expected value is
compared by case/whitespace-insensitive string equality. -/
def matchValue (actual expected : Value) : Bool :=
  match expected with
  | .str e =>
    if pyStartsWith e "GT" then
      match pyFloat actual with
      | none => false
      | some v0 =>
        let v := if v0 ≤ 1 then v0 * 100 else v0
        match parseFloat (pyDrop e 2) with
        | none => false
        | some t => t < v
    else pyNorm actual == pyNorm (.str e)
  | _ => pyNorm actual == pyNorm expected

mutual
/-- `RuleDispatcher._match_trigger` (lpp.py line 591): iterate the trigger
mapping in insertion order; at the key `"or"` the function returns whether
any sub-trigger fully matches (ignoring any remaining keys); a non-`"or"`
key resolves its field from the `"los"` section and fails the whole match
unless some expected entry matches.  (A sub-trigger list under a non-`"or"`
key, or a literal list under `"or"`, is a nonsensical configuration the
source would respectively string-compare or crash on; both are modelled as a
non-match and exercised by no claim.) -/
def matchTrigger (cfg : FieldsCfg) (ctx : Context) : List (String × TrigRhs) → Bool
  | [] => true
  | (key, rhs) :: rest =>
    if key = "or" then
      match rhs with
      | .subs l => anySubTrigger cfg ctx l
      | .vals _ => false
    else
      match rhs with
      | .vals l =>
        if l.any (fun e => matchValue (resolve cfg ctx "los" key) e) then
          matchTrigger cfg ctx rest
        else false
      | .subs _ => false

/-- `any(self._match_trigger(x, context) for x in expected_list)`, with the
generator's left-to-right short-circuit. -/
def anySubTrigger (cfg : FieldsCfg) (ctx : Context) : List (List (String × TrigRhs)) → Bool
  | [] => false
  | t :: ts => matchTrigger cfg ctx t || anySubTrigger cfg ctx ts
end

/-- What the `"or"` key contributes: some sub-trigger fully matches. -/
def orClauseMatches (cfg : FieldsCfg) (ctx : Context) : TrigRhs → Bool
  | .subs l => anySubTrigger cfg ctx l
  | .vals _ => false

/-- Whether one key of a trigger mapping matches on its own: a non-`"or"`
key's resolved field matches some expected entry; the `"or"` key has some
fully-matching sub-trigger.  (This is the per-key reading of the claimed
conjunction semantics.) -/
def entryMatches (cfg : FieldsCfg) (ctx : Context) : String × TrigRhs → Bool
  | (key, rhs) =>
    if key = "or" then orClauseMatches cfg ctx rhs
    else
      match rhs with
      | .vals l => l.any (fun e => matchValue (resolve cfg ctx "los" key) e)
      | .subs _ => false

/-- The registered validator implementations (`RuleDispatcher.__init__`,
lpp.py line 552): validator-variant name to bound evaluation function.
`now` feeds the `datetime.now()` default of `months_between`; `fz` is the
fuzzy-similarity library function. -/
def getValidator (now : Date) (fz : String → String → Nat) (name : String) :
    Option (FieldsCfg → Rule → Context → Verdict) :=
  if name = "LTVValidator" then some ltvEval
  else if name = "DTIValidator" then some dtiEval
  else if name = "OccupancyValidator" then some occupancyEval
  else if name = "SecondHomeValidator" then some secondHomeEval
  else if name = "InvestmentValidator" then some investmentEval
  else if name = "CreditScoreValidator" then some creditScoreEval
  else if name = "GiftValidator" then some giftEval
  else if name = "CashoutSeasoningValidator" then some (cashoutSeasoningEval fz)
  else if name = "TitleValidator" then some (titleEval now)
  else if name = "FraudValidator" then some (fraudEval now)
  else if name = "AppraisalPriorSaleValidator" then some (appraisalPriorSaleEval now)
  else if name = "LoanProgramValidator" then some loanProgramEval
  else if name = "CashbackValidator" then some cashbackEval
  else if name = "HomebuyerProgramValidator" then some homebuyerProgramEval
  else if name = "HomebuyerLTVValidator" then some homebuyerLtvEval
  else if name = "IncomeValidator" then some incomeEval
  else if name = "LienPayoffValidator" then some lienPayoffEval
  else none

/-- One iteration of the dispatcher loop (`RuleDispatcher.evaluate`, lpp.py
line 601): a rule whose validator name is unregistered contributes nothing;
otherwise a failed trigger emits a NOT_APPLICABLE verdict and a passed
trigger emits the bound validator's verdict, keyed by the rule id. -/
def dispatchRule (now : Date) (fz : String → String → Nat) (cfg : FieldsCfg)
    (ctx : Context) (acc : List (String × Verdict)) (rule : Rule) :
    List (String × Verdict) :=
  match getValidator now fz rule.validator with
  | none => acc
  | some v =>
    if matchTrigger cfg ctx rule.trigger = false then
      dictInsert acc rule.id (notApplicableResult rule [])
    else
      dictInsert acc rule.id (v cfg rule ctx)

/-- `RuleDispatcher.evaluate`: fold the dispatcher loop over the rules in
load order, building the verdict mapping. -/
def evaluate (now : Date) (fz : String → String → Nat) (cfg : FieldsCfg)
    (rules : List Rule) (ctx : Context) : List (String × Verdict) :=
  rules.foldl (dispatchRule now fz cfg ctx) []

/-- One dispatcher run as observed by the caller: the verdict mapping
together with the context after the run (the source never writes to the
context or the rule definitions, so the embedding threads no state). -/
def evaluateRun (now : Date) (fz : String → String → Nat) (cfg : FieldsCfg)
    (rules : List Rule) (ctx : Context) : List (String × Verdict) × Context :=
  (evaluate now fz cfg rules ctx, ctx)

/-- A concrete similarity function used for sample runs: 100 on equal
strings, 0 otherwise.  On every pair of equal strings it agrees with both
library implementations (`token_set_ratio` and the difflib fallback score
identical strings at 100). -/
def fzEq (a b : String) : Nat := if a == b then 100 else 0

/-! ### Concrete sample data used by the claim witnesses and counterexamples -/

/-- Concrete configuration for the C2 sample: field `f` of section `los` at
dotted path `a.b` with default `"D"`. -/
def c2Cfg : FieldsCfg := [("los", [("f", ⟨"a.b", .str "D"⟩)])]

/-- Concrete context for the C2 sample: `los.a` is a dict without key `b`. -/
def c2Ctx : Context := [("los", .obj [("a", .obj [("z", .int 1)])])]

/-- The C3 sample rules: one rule bound to an unknown validator name,
followed by a registered one. -/
def c3Rules : List Rule :=
  [⟨"r3", "NopeValidator", [], [], [], "", ""⟩,
   ⟨"r3b", "DTIValidator", [], [], [], "", ""⟩]

/-- The C4 sample rule: empty trigger, registered DTI validator. -/
def c4Rule : Rule := ⟨"r4", "DTIValidator", [], [], [], "", ""⟩

/-- Configuration for the C1 sample: `los.a` at path `a`, no default. -/
def c1Cfg : FieldsCfg := [("los", [("a", ⟨"a", Value.null⟩)])]

/-- Context for the C1 sample: `los.a = "x"`. -/
def c1Ctx : Context := [("los", .obj [("a", .str "x")])]

/-- The C10 sample rule. -/
def c10Rule : Rule := ⟨"r10", "FraudValidator", [], [], [], "", ""⟩

/-- Configuration for the C8 samples: closing date at `los.ecd`, fraud date
at `drive_report.frd` (address fields unconfigured, hence null). -/
def c8Cfg : FieldsCfg :=
  [("los", [("estimated_closing_date", ⟨"ecd", Value.null⟩)]),
   ("drive_report", [("fraud_recorded_date", ⟨"frd", Value.null⟩)])]

/-- Context for the C8 counterexample: parseable fraud date, present but
unparseable closing date. -/
def c8Ctx : Context :=
  [("los", .obj [("ecd", .str "garbage")]),
   ("drive_report", .obj [("frd", .str "01-01-2020")])]

/-- The C8 sample rule (no params: `max_months` defaults to 6). -/
def c8Rule : Rule := ⟨"r8", "FraudValidator", [], [], [], "", ""⟩

/-- Context for the amended-C8 witness: both dates parse, 3 months apart. -/
def c8CtxW : Context :=
  [("los", .obj [("ecd", .str "04-01-2020")]),
   ("drive_report", .obj [("frd", .str "01-01-2020")])]

/-- Configuration for the C7 samples: the three LOS fields the cashout
validator resolves. -/
def c7Cfg : FieldsCfg :=
  [("los", [("liabilities_account_number", ⟨"acct", Value.null⟩),
            ("liabilities_name", ⟨"nm", Value.null⟩),
            ("estimated_closing_date", ⟨"ecd", Value.null⟩)])]

/-- The tradeline of the C7 counterexample: empty account number, creditor
name equal to the liability name, opened 2010. -/
def c7Tl : Value :=
  .obj [("Creditor Account Number", .str ""), ("Creditor Name", .str "ABC"),
        ("Date_Opened", .str "01-01-2010")]

/-- Context for the C7 counterexample: empty liability account number and a
single tradeline with an equally empty account number. -/
def c7Ctx : Context :=
  [("los", .obj [("acct", .str ""), ("nm", .str "ABC"), ("ecd", .str "01-01-2020")]),
   ("credit_report", .obj [("Tradelines", .list [c7Tl])])]

/-- The C7 sample rule. -/
def c7Rule : Rule := ⟨"r7", "CashoutSeasoningValidator", [], [], [], "", ""⟩

/-- The tradeline of the amended-C7 witness. -/
def c7TlW : Value :=
  .obj [("Creditor Account Number", .str "XX34567890"),
        ("Creditor Name", .str "ABC Bank"), ("Date_Opened", .str "01-01-2019")]

/-- Context for the amended-C7 witness: matching last-4 account digits,
equal creditor and liability names, tradeline opened 24 months before the
closing date. -/
def c7CtxW : Context :=
  [("los", .obj [("acct", .str "1234567890"), ("nm", .str "ABC Bank"),
                 ("ecd", .str "01-01-2021")]),
   ("credit_report", .obj [("Tradelines", .list [c7TlW])])]

/-! ### Helper lemmas -/

theorem walkPath_of_walkPrefix (pre : List String) :
    ∀ (cur v : Value) (rest : List String) (d : Value),
      walkPrefix cur pre = some v →
      walkPath cur (pre ++ rest) d = walkPath v rest d := by
  induction pre with
  | nil =>
    intro cur v rest d h
    simp [walkPrefix] at h
    subst h
    simp
  | cons p ps ih =>
    intro cur v rest d h
    cases cur <;> simp [walkPrefix] at h
    case obj flds =>
      cases hg : dictGet flds p with
      | none => simp [hg] at h
      | some w =>
        simp [hg] at h
        simpa [walkPath, hg] using ih w v rest d h

theorem dictGet_dictInsert_ne {α : Type} (d : List (String × α)) (k i : String)
    (v : α) (h : k ≠ i) : dictGet (dictInsert d k v) i = dictGet d i := by
  induction d with
  | nil => simp [dictInsert, dictGet, h]
  | cons kv rest ih =>
    obtain ⟨k', v'⟩ := kv
    simp only [dictInsert]
    by_cases hk : k' = k
    · subst hk
      simp [dictGet, h]
    · simp only [if_neg hk, dictGet]
      by_cases hi : k' = i <;> simp [hi, ih]

theorem foldl_dispatch_filter (now : Date) (fz : String → String → Nat)
    (cfg : FieldsCfg) (ctx : Context) :
    ∀ (rules : List Rule) (acc : List (String × Verdict)),
      rules.foldl (dispatchRule now fz cfg ctx) acc
        = (rules.filter (fun r => (getValidator now fz r.validator).isSome)).foldl
            (dispatchRule now fz cfg ctx) acc := by
  intro rules
  induction rules with
  | nil => intro acc; rfl
  | cons r rest ih =>
    intro acc
    cases hv : getValidator now fz r.validator with
    | none =>
      have hskip : dispatchRule now fz cfg ctx acc r = acc := by
        simp [dispatchRule, hv]
      simp [List.foldl_cons, List.filter_cons, hv, hskip, ih]
    | some v =>
      simp [List.foldl_cons, List.filter_cons, hv, ih]

theorem foldl_dispatch_fresh_id (now : Date) (fz : String → String → Nat)
    (cfg : FieldsCfg) (ctx : Context) (i : String) :
    ∀ (rules : List Rule) (acc : List (String × Verdict)),
      (∀ r', r' ∈ rules → (getValidator now fz r'.validator).isSome → r'.id ≠ i) →
      dictGet acc i = none →
      dictGet (rules.foldl (dispatchRule now fz cfg ctx) acc) i = none := by
  intro rules
  induction rules with
  | nil => intro acc _ h; simpa using h
  | cons r rest ih =>
    intro acc hne hacc
    simp only [List.foldl_cons]
    apply ih
    · intro r' hr' hs
      exact hne r' (List.mem_cons_of_mem _ hr') hs
    · cases hv : getValidator now fz r.validator with
      | none => simpa [dispatchRule, hv] using hacc
      | some v =>
        have hid : r.id ≠ i := hne r (List.mem_cons_self r rest) (by simp [hv])
        simp only [dispatchRule, hv]
        by_cases hm : matchTrigger cfg ctx r.trigger = false <;>
          simp [hm, dictGet_dictInsert_ne _ _ _ _ hid, hacc]

/-! ### Claims -/

/-- C2.  Field resolution miss cases: with no path configuration for the
(section, field) pair, `resolve` returns null; with a configuration, a walk
that at any segment reaches a value that is not a mapping or lacks the
segment key yields the configured default, and a walk that resolves the full
path to a present null also yields the configured default.  `resolve` is a
total function of the context (it never raises): these equations and its
type cover every context, malformed or missing sections included. -/
theorem c2_resolver_miss_cases :
    ∀ (cfg : FieldsCfg) (ctx : Context) (s n : String),
      (fieldCfgOf cfg s n = none → resolve cfg ctx s n = .null)
      ∧ (∀ fc, fieldCfgOf cfg s n = some fc →
          (∀ pre k suf v, pySplit fc.path '.' = pre ++ k :: suf →
              walkPrefix (sectionOf ctx s) pre = some v →
              (∀ flds, v = .obj flds → dictGet flds k = none) →
              resolve cfg ctx s n = fc.default)
          ∧ (walkPrefix (sectionOf ctx s) (pySplit fc.path '.') = some .null →
              resolve cfg ctx s n = fc.default)) := by
  intro cfg ctx s n
  constructor
  · intro h
    simp [resolve, h]
  · intro fc hfc
    constructor
    · intro pre k suf v hsplit hwalk hmiss
      simp only [resolve, hfc, hsplit]
      rw [walkPath_of_walkPrefix pre _ v (k :: suf) fc.default hwalk]
      cases v with
      | obj flds =>
        have := hmiss flds rfl
        simp [walkPath, this]
      | null => simp [walkPath]
      | bool b => simp [walkPath]
      | int m => simp [walkPath]
      | num q => simp [walkPath]
      | str t => simp [walkPath]
      | date d => simp [walkPath]
      | list l => simp [walkPath]
    · intro hwalk
      simp only [resolve, hfc]
      have := walkPath_of_walkPrefix (pySplit fc.path '.') (sectionOf ctx s)
        .null [] fc.default hwalk
      simpa [walkPath, isNull] using this

/-- Witness for C2: the walk into `c2Ctx` fails at segment `b`, so the
configured default is returned. -/
theorem c2_resolver_miss_cases_witness :
    resolve c2Cfg c2Ctx "los" "f" = Value.str "D" := by
  have h := (c2_resolver_miss_cases c2Cfg c2Ctx "los" "f").2 ⟨"a.b", .str "D"⟩ rfl
  exact h.1 ["a"] "b" [] (Value.obj [("z", Value.int 1)]) rfl rfl
    (by intro flds hf; cases hf; rfl)

/-- C3.  A rule whose configured validator name has no registered
implementation is silently dropped by the dispatcher: the verdict mapping
equals the one computed from the registered rules alone, and (provided no
registered rule reuses the identifier) the output mapping holds no entry at
all for the dropped rule's identifier — in particular not a NOT_APPLICABLE
verdict.  All other rules are unaffected. -/
theorem c3_unregistered_validator_dropped :
    ∀ (now : Date) (fz : String → String → Nat) (cfg : FieldsCfg)
      (rules : List Rule) (ctx : Context),
      evaluate now fz cfg rules ctx
        = evaluate now fz cfg
            (rules.filter (fun r => (getValidator now fz r.validator).isSome)) ctx
      ∧ ∀ r, r ∈ rules → getValidator now fz r.validator = none →
          (∀ r', r' ∈ rules → (getValidator now fz r'.validator).isSome → r'.id ≠ r.id) →
          dictGet (evaluate now fz cfg rules ctx) r.id = none := by
  intro now fz cfg rules ctx
  constructor
  · exact foldl_dispatch_filter now fz cfg ctx rules []
  · intro r _ _ hne
    exact foldl_dispatch_fresh_id now fz cfg ctx r.id rules [] hne rfl

/-- Witness for C3: the rule bound to the unknown name `NopeValidator` gets
no verdict at all. -/
theorem c3_unregistered_validator_dropped_witness :
    dictGet (evaluate ⟨2025, 1, 1⟩ fzEq [] c3Rules []) "r3" = none := by
  have h := (c3_unregistered_validator_dropped ⟨2025, 1, 1⟩ fzEq [] c3Rules []).2
    ⟨"r3", "NopeValidator", [], [], [], "", ""⟩ (by simp [c3Rules]) rfl
  apply h
  intro r' hr' hs
  simp [c3Rules] at hr'
  rcases hr' with h1 | h2
  · subst h1; simp [getValidator] at hs
  · subst h2; simp

/-- C4.  An empty trigger mapping matches unconditionally, and the
dispatcher then invokes the bound validator: for any rule with an empty
trigger whose validator name is registered, the dispatcher records that
validator's verdict for the rule (never a matcher-produced NOT_APPLICABLE). -/
theorem c4_empty_trigger_runs_validator :
    ∀ (now : Date) (fz : String → String → Nat) (cfg : FieldsCfg) (ctx : Context),
      matchTrigger cfg ctx [] = true
      ∧ ∀ (acc : List (String × Verdict)) (rule : Rule) v,
          rule.trigger = [] → getValidator now fz rule.validator = some v →
          dispatchRule now fz cfg ctx acc rule = dictInsert acc rule.id (v cfg rule ctx) := by
  intro now fz cfg ctx
  constructor
  · simp [matchTrigger]
  · intro acc rule v htr hv
    simp [dispatchRule, hv, htr, matchTrigger]

/-- Witness for C4: dispatching the sample rule stores the DTI validator's
verdict under its identifier. -/
theorem c4_empty_trigger_runs_validator_witness :
    dispatchRule ⟨2025, 1, 1⟩ fzEq [] [] [] c4Rule
      = dictInsert [] "r4" (dtiEval [] c4Rule []) := by
  exact (c4_empty_trigger_runs_validator ⟨2025, 1, 1⟩ fzEq [] []).2 [] c4Rule dtiEval rfl rfl

/-- C5 fails as stated: the claim reads the scaling condition as "magnitude
`|x| ≤ 1`", but the code tests the signed value `x <= 1`.  At `x = -5` (a
number of magnitude greater than 1, which the claim says is returned
unchanged) the code multiplies by 100 and returns `-500`. -/
theorem c5_percent_coercion_counterexample :
    to_pct (Value.num (-5)) = some (-500) ∧ ((-500 : ℚ) ≠ -5) := by
  constructor
  · norm_num [to_pct, pyFloat, isNull]
  · norm_num

/-- C5 (amended).  Percent coercion: for every input that parses as a
number `q`, the result is `q * 100` when `q ≤ 1` (signed comparison, not
magnitude) and `q` unchanged otherwise; for every input that fails to parse
as a number (null included), the result is null. -/
theorem c5_percent_coercion_amended :
    ∀ x : Value,
      (pyFloat x = none → to_pct x = none)
      ∧ (∀ q, pyFloat x = some q → to_pct x = some (if q ≤ 1 then q * 100 else q)) := by
  intro x
  constructor
  · intro h
    cases x <;> simp_all [to_pct, pyFloat, isNull]
  · intro q h
    have hx : isNull x = false := by cases x <;> simp_all [pyFloat, isNull]
    simp [to_pct, hx, h]

/-- Witness for the amended C5: `toPercent(0.95) == 95` and
`toPercent(95) == 95`. -/
theorem c5_percent_coercion_amended_witness :
    to_pct (Value.num (19 / 20)) = some 95 ∧ to_pct (Value.int 95) = some 95 := by
  constructor
  · have h := (c5_percent_coercion_amended (Value.num (19 / 20))).2 (19 / 20) rfl
    rw [h]; norm_num
  · have h := (c5_percent_coercion_amended (Value.int 95)).2 ((95 : ℤ) : ℚ) rfl
    rw [h]; norm_num

/-- `months_between` evaluated when both arguments parse (`d2` non-null). -/
theorem months_between_ok (now a b : Date) (d1 d2 : Value)
    (h1 : parse_date d1 = some a) (h2 : parse_date d2 = some b) :
    months_between now d1 d2 = .ok (monthsDiff a b) := by
  have hd2 : isNull d2 = false := by
    cases d2 <;> simp_all [parse_date, truthy, isNull]
  simp [months_between, h1, hd2, h2]

/-- C6 fails as stated: the claim says `monthsBetween` raises if and only if
either input fails to parse as a date, but an explicitly null `d2` — which
fails to parse — selects `datetime.now()` instead of raising: with "now" at
2025-10-12, `monthsBetween("01-01-2020", None)` returns 69 months. -/
theorem c6_months_between_counterexample :
    parse_date Value.null = none
    ∧ months_between ⟨2025, 10, 12⟩ (Value.str "01-01-2020") Value.null = .ok 69 := by
  exact ⟨rfl, rfl⟩

/-- C6 (amended).  For a non-null `d2`, `monthsBetween` raises iff either
input fails to parse (a null `d2` instead selects the current time and never
raises); when both inputs parse it returns
`abs((y2−y1)*12 + (m2−m1))`, ignoring day-of-month, so for non-null
arguments it is symmetric and two dates in the same calendar month with
different days yield 0. -/
theorem c6_months_between_amended :
    ∀ (now : Date) (d1 d2 : Value),
      (d2 ≠ Value.null →
        ((∃ k, months_between now d1 d2 = .ok k)
          ↔ ((parse_date d1).isSome ∧ (parse_date d2).isSome)))
      ∧ (∀ a b, parse_date d1 = some a → parse_date d2 = some b →
          months_between now d1 d2
            = .ok (((b.year - a.year) * 12 + (b.month - a.month)).natAbs))
      ∧ (d1 ≠ Value.null → d2 ≠ Value.null →
          months_between now d1 d2 = months_between now d2 d1)
      ∧ (∀ a b, parse_date d1 = some a → parse_date d2 = some b →
          a.year = b.year → a.month = b.month →
          months_between now d1 d2 = .ok 0) := by
  intro now d1 d2
  have key : ∀ v : Value, v ≠ Value.null → isNull v = false := by
    intro v hv
    cases v <;> simp_all [isNull]
  refine ⟨?_, ?_, ?_, ?_⟩
  · intro h2
    cases h1 : parse_date d1 with
    | none => simp [months_between, h1]
    | some a =>
      cases h2' : parse_date d2 with
      | none => simp [months_between, h1, key d2 h2, h2']
      | some b => simp [months_between, h1, key d2 h2, h2']
  · intro a b ha hb
    simpa [monthsDiff] using months_between_ok now a b d1 d2 ha hb
  · intro h1 h2
    cases ha : parse_date d1 with
    | none =>
      cases hb : parse_date d2 with
      | none => simp [months_between, ha, hb, key d1 h1, key d2 h2]
      | some b => simp [months_between, ha, hb, key d1 h1, key d2 h2]
    | some a =>
      cases hb : parse_date d2 with
      | none => simp [months_between, ha, hb, key d1 h1, key d2 h2]
      | some b =>
        rw [months_between_ok now a b d1 d2 ha hb,
          months_between_ok now b a d2 d1 hb ha]
        unfold monthsDiff
        congr 1
        omega
  · intro a b ha hb hy hm
    rw [months_between_ok now a b d1 d2 ha hb]
    unfold monthsDiff
    congr 1
    omega

/-- Witness for the amended C6: 2020-01-15 and 2020-01-31 are 0 months
apart, and the function is symmetric for two parseable non-null inputs. -/
theorem c6_months_between_amended_witness :
    months_between ⟨2025, 1, 1⟩ (Value.str "01-15-2020") (Value.str "01-31-2020") = .ok 0
    ∧ months_between ⟨2025, 1, 1⟩ (Value.str "01-15-2020") (Value.str "03-20-2021")
        = months_between ⟨2025, 1, 1⟩ (Value.str "03-20-2021") (Value.str "01-15-2020") := by
  constructor
  · exact (c6_months_between_amended ⟨2025, 1, 1⟩ _ _).2.2.2 ⟨2020, 1, 15⟩ ⟨2020, 1, 31⟩
      rfl rfl rfl rfl
  · exact (c6_months_between_amended ⟨2025, 1, 1⟩ _ _).2.2.1
      (fun h => Value.noConfusion h) (fun h => Value.noConfusion h)

/-- C1 fails as stated: the claim requires conjunction across all keys of
the trigger mapping even when `"or"` appears alongside other keys, but the
matcher returns at the `"or"` key, ignoring every later key.  The trigger
`{"or": [{}], "x": ["bar"]}` matches (the empty sub-trigger matches
unconditionally) although the key `"x"` does not match on its own. -/
theorem c1_trigger_or_counterexample :
    matchTrigger [] [] [("or", .subs [[]]), ("x", .vals [.str "bar"])] = true
    ∧ entryMatches [] [] ("x", .vals [.str "bar"]) = false := by
  constructor
  · simp [matchTrigger, anySubTrigger]
  · rfl

/-- C1 (amended).  Trigger matching is conjunction over the keys up to the
first `"or"` key only: a trigger with no `"or"` key matches iff every key
matches (each non-`"or"` key's field, resolved from the `"los"` section,
matches at least one expected entry); a trigger of the form
`pre ++ ["or" ↦ subs] ++ rest` with `pre` free of `"or"` matches iff every
key of `pre` matches and some sub-trigger of the `"or"` clause fully
matches — the keys in `rest` after the `"or"` key are ignored. -/
theorem c1_trigger_amended :
    ∀ (cfg : FieldsCfg) (ctx : Context),
      (∀ t : Trigger, (∀ e ∈ t, e.1 ≠ "or") →
          matchTrigger cfg ctx t = t.all (entryMatches cfg ctx))
      ∧ (∀ (pre : Trigger) (rhs : TrigRhs) (rest : Trigger),
          (∀ e ∈ pre, e.1 ≠ "or") →
          matchTrigger cfg ctx (pre ++ ("or", rhs) :: rest)
            = (pre.all (entryMatches cfg ctx) && orClauseMatches cfg ctx rhs)) := by
  intro cfg ctx
  constructor
  · intro t ht
    induction t with
    | nil => simp [matchTrigger]
    | cons e rest ih =>
      obtain ⟨k, rhs⟩ := e
      have hk : k ≠ "or" := ht (k, rhs) (List.mem_cons_self _ _)
      have ih' := ih (fun e he => ht e (List.mem_cons_of_mem _ he))
      cases rhs with
      | vals l =>
        by_cases ha : l.any (fun e => matchValue (resolve cfg ctx "los" k) e) = true
        · simp [matchTrigger, hk, entryMatches, ha, ih']
        · simp [matchTrigger, hk, entryMatches, ha]
      | subs l => simp [matchTrigger, hk, entryMatches]
  · intro pre rhs rest hpre
    induction pre with
    | nil =>
      cases rhs <;> simp [matchTrigger, orClauseMatches]
    | cons e pre' ih =>
      obtain ⟨k, r⟩ := e
      have hk : k ≠ "or" := hpre (k, r) (List.mem_cons_self _ _)
      have ih' := ih (fun e he => hpre e (List.mem_cons_of_mem _ he))
      cases r with
      | vals l =>
        by_cases ha : l.any (fun e => matchValue (resolve cfg ctx "los" k) e) = true
        · simp [List.cons_append, matchTrigger, hk, entryMatches, ha, ih',
            Bool.and_assoc]
        · simp [List.cons_append, matchTrigger, hk, entryMatches, ha]
      | subs l =>
        simp [List.cons_append, matchTrigger, hk, entryMatches]

/-- Witness for the amended C1: a matching key before `"or"`, an `"or"`
clause containing the empty (always-matching) sub-trigger, and a
non-matching key after `"or"` — the whole trigger matches. -/
theorem c1_trigger_amended_witness :
    matchTrigger c1Cfg c1Ctx
      ([("a", .vals [.str "x"])] ++ ("or", .subs [[]]) :: [("b", .vals [.str "y"])])
      = true := by
  have h := (c1_trigger_amended c1Cfg c1Ctx).2 [("a", .vals [.str "x"])] (.subs [[]])
    [("b", .vals [.str "y"])]
    (by intro e he; simp [List.mem_singleton] at he; subst he; decide)
  rw [h]
  simp [entryMatches, orClauseMatches, anySubTrigger, matchTrigger]
  rfl

theorem months_between_dates (now d e : Date) :
    months_between now (.date d) (.date e) = .ok (monthsDiff d e) := rfl

theorem months_between_date_null (now d : Date) :
    months_between now (.date d) .null = .ok (monthsDiff d now) := rfl

theorem months_between_null_first (now : Date) (v : Value) :
    months_between now .null v = .error () := rfl

/-- C10.  In the Fraud validator, when all eight address fields (drive
report street/city/state/unit and LOS subject street/city/state/unit)
resolve to null, the address gate succeeds — `normalize_string` maps null to
the empty string, so each pair compares equal — and the verdict is then
decided by the fraud/closing-date portion of the validator instead of being
NOT_APPLICABLE for an address mismatch. -/
theorem c10_all_null_addresses_pass_gate :
    ∀ (now : Date) (cfg : FieldsCfg) (rule : Rule) (ctx : Context),
      resolve cfg ctx "drive_report" "drive_street" = .null →
      resolve cfg ctx "los" "urla_lender_subject_street" = .null →
      resolve cfg ctx "drive_report" "drive_city" = .null →
      resolve cfg ctx "los" "urla_lender_subject_city" = .null →
      resolve cfg ctx "drive_report" "drive_state" = .null →
      resolve cfg ctx "los" "urla_lender_subject_state" = .null →
      resolve cfg ctx "drive_report" "drive_unit" = .null →
      resolve cfg ctx "los" "urla_lender_subject_unit" = .null →
      normalize_string Value.null = ""
      ∧ fraudAddrMatch cfg ctx = true
      ∧ fraudEval now cfg rule ctx
          = fraudDatesDecide now cfg rule ctx (fraudDetails cfg ctx) := by
  intro now cfg rule ctx h1 h2 h3 h4 h5 h6 h7 h8
  have hm : fraudAddrMatch cfg ctx = true := by
    simp [fraudAddrMatch, h1, h2, h3, h4, h5, h6, h7, h8]
  exact ⟨rfl, hm, by simp [fraudEval, hm]⟩

/-- Witness for C10: under the empty configuration every field resolves to
null, and the Fraud validator proceeds to its date logic. -/
theorem c10_all_null_addresses_pass_gate_witness :
    fraudEval ⟨2025, 1, 1⟩ [] c10Rule []
      = fraudDatesDecide ⟨2025, 1, 1⟩ [] c10Rule [] (fraudDetails [] []) :=
  (c10_all_null_addresses_pass_gate ⟨2025, 1, 1⟩ [] c10Rule []
    rfl rfl rfl rfl rfl rfl rfl rfl).2.2

/-- C8 fails as stated: the claim says a present-but-unparseable estimated
closing date yields NOT_APPLICABLE, but `months_between` treats the `None`
produced by the failed parse of its second argument as "use
`datetime.now()`": with matching (all-null) addresses, a fraud date of
2020-01-01 and closing date `"garbage"`, the validator compares the fraud
date against the current date (2025-10-12, 69 months) and returns PASS
instead of NOT_APPLICABLE. -/
theorem c8_fraud_counterexample :
    truthy (resolve c8Cfg c8Ctx "los" "estimated_closing_date") = true
    ∧ parse_date (resolve c8Cfg c8Ctx "los" "estimated_closing_date") = none
    ∧ (fraudEval ⟨2025, 10, 12⟩ c8Cfg c8Rule c8Ctx).status = "PASS" := by
  refine ⟨rfl, rfl, ?_⟩
  have hm : fraudAddrMatch c8Cfg c8Ctx = true := rfl
  have hfd : resolve c8Cfg c8Ctx "drive_report" "fraud_recorded_date"
      = Value.str "01-01-2020" := rfl
  have hec : resolve c8Cfg c8Ctx "los" "estimated_closing_date"
      = Value.str "garbage" := rfl
  have hp1 : parse_date (Value.str "01-01-2020") = some ⟨2020, 1, 1⟩ := rfl
  have hp2 : parse_date (Value.str "garbage") = none := rfl
  have hstep : fraudEval ⟨2025, 10, 12⟩ c8Cfg c8Rule c8Ctx
      = fraudDatesDecide ⟨2025, 10, 12⟩ c8Cfg c8Rule c8Ctx (fraudDetails c8Cfg c8Ctx) := by
    simp [fraudEval, hm]
  rw [hstep]
  simp only [fraudDatesDecide, hfd, hec, hp1, hp2, optDateVal]
  have hcond : (decide (truthy (Value.str "01-01-2020") = false)
      || decide (truthy (Value.str "garbage") = false)) = false := by decide
  rw [hcond]
  rw [if_neg (by decide : ¬((false : Bool) = true))]
  rw [months_between_date_null]
  have hmd : monthsDiff ⟨2020, 1, 1⟩ ⟨2025, 10, 12⟩ = 69 := by decide
  rw [hmd]
  have hpar : paramD c8Rule "max_months" 6 = 6 := rfl
  simp only [hpar]
  rw [if_neg (by norm_num : ¬((69 : ℕ) : ℚ) < 6)]
  rfl

/-- C8 (amended).  Fraud validator: a mismatch in any of the four
normalized address components is NOT_APPLICABLE regardless of the dates.
With all four matching: a falsy (missing) fraud date or closing date is
NOT_APPLICABLE; an unparseable fraud date is NOT_APPLICABLE; with both
parsed, the verdict is ALERT when the months between them fall below
`max_months` (default 6) and PASS otherwise; but a present-and-unparseable
closing date does not give NOT_APPLICABLE — the months are computed between
the fraud date and the current date, yielding ALERT/PASS by the same
comparison. -/
theorem c8_fraud_amended :
    ∀ (now : Date) (cfg : FieldsCfg) (rule : Rule) (ctx : Context),
      (fraudAddrMatch cfg ctx = false →
        (fraudEval now cfg rule ctx).status = "NOT_APPLICABLE")
      ∧ (fraudAddrMatch cfg ctx = true →
          ((truthy (resolve cfg ctx "drive_report" "fraud_recorded_date") = false
              ∨ truthy (resolve cfg ctx "los" "estimated_closing_date") = false) →
            (fraudEval now cfg rule ctx).status = "NOT_APPLICABLE")
          ∧ (truthy (resolve cfg ctx "drive_report" "fraud_recorded_date") = true →
             truthy (resolve cfg ctx "los" "estimated_closing_date") = true →
              (parse_date (resolve cfg ctx "drive_report" "fraud_recorded_date") = none →
                (fraudEval now cfg rule ctx).status = "NOT_APPLICABLE")
              ∧ (∀ dF dC,
                  parse_date (resolve cfg ctx "drive_report" "fraud_recorded_date") = some dF →
                  parse_date (resolve cfg ctx "los" "estimated_closing_date") = some dC →
                  ((monthsDiff dF dC : ℚ) < paramD rule "max_months" 6 →
                    (fraudEval now cfg rule ctx).status = "ALERT")
                  ∧ (paramD rule "max_months" 6 ≤ (monthsDiff dF dC : ℚ) →
                    (fraudEval now cfg rule ctx).status = "PASS"))
              ∧ (∀ dF,
                  parse_date (resolve cfg ctx "drive_report" "fraud_recorded_date") = some dF →
                  parse_date (resolve cfg ctx "los" "estimated_closing_date") = none →
                  ((monthsDiff dF now : ℚ) < paramD rule "max_months" 6 →
                    (fraudEval now cfg rule ctx).status = "ALERT")
                  ∧ (paramD rule "max_months" 6 ≤ (monthsDiff dF now : ℚ) →
                    (fraudEval now cfg rule ctx).status = "PASS")))) := by
  intro now cfg rule ctx
  constructor
  · intro haddr
    simp [fraudEval, haddr, notApplicableResult]
  · intro haddr
    have heval : fraudEval now cfg rule ctx
        = fraudDatesDecide now cfg rule ctx (fraudDetails cfg ctx) := by
      simp [fraudEval, haddr]
    rw [heval]
    refine ⟨?_, ?_⟩
    · intro hfalsy
      rcases hfalsy with h | h <;>
        simp [fraudDatesDecide, h, notApplicableResult]
    · intro hft hct
      refine ⟨?_, ?_, ?_⟩
      · intro hpf
        simp [fraudDatesDecide, hft, hct, hpf, optDateVal, months_between_null_first,
          notApplicableResult]
      · intro dF dC hpf hpc
        constructor
        · intro hlt
          simp [fraudDatesDecide, hft, hct, hpf, hpc, optDateVal,
            months_between_dates, hlt, alertResult]
        · intro hge
          simp [fraudDatesDecide, hft, hct, hpf, hpc, optDateVal,
            months_between_dates, not_lt.mpr hge, passResult]
      · intro dF hpf hpc
        constructor
        · intro hlt
          simp [fraudDatesDecide, hft, hct, hpf, hpc, optDateVal,
            months_between_date_null, hlt, alertResult]
        · intro hge
          simp [fraudDatesDecide, hft, hct, hpf, hpc, optDateVal,
            months_between_date_null, not_lt.mpr hge, passResult]

/-- Witness for the amended C8: matching (all-null) addresses and a fraud
date 3 months before the closing date alert under the default
`max_months = 6`. -/
theorem c8_fraud_amended_witness :
    (fraudEval ⟨2025, 10, 12⟩ c8Cfg c8Rule c8CtxW).status = "ALERT" := by
  have h := ((c8_fraud_amended ⟨2025, 10, 12⟩ c8Cfg c8Rule c8CtxW).2 rfl).2 rfl rfl
  refine (h.2.1 ⟨2020, 1, 1⟩ ⟨2020, 4, 1⟩ rfl rfl).1 ?_
  norm_num [monthsDiff, paramD, c8Rule, dictGet]

/-- The Fraud validator on the C8 sample context (matching addresses,
fraud date 2020-01-01, truthy but unparseable closing date) decides by
comparing the fraud date against the clock reading `now`. -/
theorem fraudEval_garbage_close (now : Date) :
    (fraudEval now c8Cfg c8Rule c8Ctx).status
      = if ((monthsDiff ⟨2020, 1, 1⟩ now : ℚ) < 6) then "ALERT" else "PASS" := by
  have hm : fraudAddrMatch c8Cfg c8Ctx = true := rfl
  have hfd : resolve c8Cfg c8Ctx "drive_report" "fraud_recorded_date"
      = Value.str "01-01-2020" := rfl
  have hec : resolve c8Cfg c8Ctx "los" "estimated_closing_date"
      = Value.str "garbage" := rfl
  have hp1 : parse_date (Value.str "01-01-2020") = some ⟨2020, 1, 1⟩ := rfl
  have hp2 : parse_date (Value.str "garbage") = none := rfl
  have hstep : fraudEval now c8Cfg c8Rule c8Ctx
      = fraudDatesDecide now c8Cfg c8Rule c8Ctx (fraudDetails c8Cfg c8Ctx) := by
    simp [fraudEval, hm]
  rw [hstep]
  simp only [fraudDatesDecide, hfd, hec, hp1, hp2, optDateVal]
  have hcond : (decide (truthy (Value.str "01-01-2020") = false)
      || decide (truthy (Value.str "garbage") = false)) = false := by decide
  rw [hcond]
  rw [if_neg (by decide : ¬((false : Bool) = true))]
  rw [months_between_date_null]
  have hpar : paramD c8Rule "max_months" 6 = 6 := rfl
  simp only [hpar]
  by_cases h : ((monthsDiff ⟨2020, 1, 1⟩ now : ℚ) < 6)
  · rw [if_pos h, if_pos h]; rfl
  · rw [if_neg h, if_neg h]; rfl

/-- A dispatcher run over the single C8 sample rule is one Fraud-validator
verdict keyed by `"r8"`. -/
theorem evaluate_single_fraud (now : Date) :
    evaluate now fzEq c8Cfg [c8Rule] c8Ctx
      = [("r8", fraudEval now c8Cfg c8Rule c8Ctx)] := by
  have hv : getValidator now fzEq "FraudValidator" = some (fraudEval now) := rfl
  simp [evaluate, dispatchRule, c8Rule, hv, matchTrigger, dictInsert]

/-- C9 fails as stated: the source samples `datetime.now()` anew inside each
run (through `months_between`'s null-`d2` default), so the dispatcher's
output is a function of the clock, not of the rule set, configuration and
context alone.  On a context whose closing date is present but unparseable,
two runs of the same rule set on the identical, unmodified context yield
different verdict mappings at different clock readings: PASS for the
2020-01-01 fraud date at now 2025-10-12 (69 months), ALERT at now 2020-03-01
(2 months, below the default max_months of 6). -/
theorem c9_clock_counterexample :
    Option.map Verdict.status
        (dictGet (evaluate ⟨2025, 10, 12⟩ fzEq c8Cfg [c8Rule] c8Ctx) "r8") = some "PASS"
    ∧ Option.map Verdict.status
        (dictGet (evaluate ⟨2020, 3, 1⟩ fzEq c8Cfg [c8Rule] c8Ctx) "r8") = some "ALERT"
    ∧ evaluate ⟨2025, 10, 12⟩ fzEq c8Cfg [c8Rule] c8Ctx
        ≠ evaluate ⟨2020, 3, 1⟩ fzEq c8Cfg [c8Rule] c8Ctx := by
  have e1 := evaluate_single_fraud ⟨2025, 10, 12⟩
  have e2 := evaluate_single_fraud ⟨2020, 3, 1⟩
  have hmd1 : monthsDiff ⟨2020, 1, 1⟩ ⟨2025, 10, 12⟩ = 69 := by decide
  have hmd2 : monthsDiff ⟨2020, 1, 1⟩ ⟨2020, 3, 1⟩ = 2 := by decide
  have s1 : (fraudEval ⟨2025, 10, 12⟩ c8Cfg c8Rule c8Ctx).status = "PASS" := by
    rw [fraudEval_garbage_close, hmd1]
    norm_num
  have s2 : (fraudEval ⟨2020, 3, 1⟩ c8Cfg c8Rule c8Ctx).status = "ALERT" := by
    rw [fraudEval_garbage_close, hmd2]
    norm_num
  refine ⟨?_, ?_, ?_⟩
  · rw [e1]
    simp [dictGet, s1]
  · rw [e2]
    simp [dictGet, s2]
  · intro h
    rw [e1, e2] at h
    have hv : fraudEval ⟨2025, 10, 12⟩ c8Cfg c8Rule c8Ctx
        = fraudEval ⟨2020, 3, 1⟩ c8Cfg c8Rule c8Ctx := by
      injection h with h1 _
      injection h1 with _ hv
    rw [hv, s2] at s1
    exact absurd s1 (by decide)

/-- C9 (amended).  A dispatcher run mutates neither the context nor the
rule definitions, and evaluation is deterministic given the clock: two runs
that observe the same current time on an identical, unmodified context
yield identical verdict mappings — same keys, and per key the same status,
message and details.  Runs observing different clock readings may differ,
because on the present-but-unparseable closing-date path the
Fraud/Title/AppraisalPriorSale validators compare against `datetime.now()`
(see the clock counterexample). -/
theorem c9_deterministic_same_clock :
    ∀ (now : Date) (fz : String → String → Nat) (cfg : FieldsCfg)
      (rules : List Rule) (ctx : Context),
      (evaluateRun now fz cfg rules ctx).2 = ctx
      ∧ (evaluateRun now fz cfg rules ((evaluateRun now fz cfg rules ctx).2)).1
          = (evaluateRun now fz cfg rules ctx).1 :=
  fun _ _ _ _ _ => ⟨rfl, rfl⟩

theorem truthy_of_parse_date {v : Value} {d : Date} (h : parse_date v = some d) :
    truthy v = true := by
  cases ht : truthy v
  · simp [parse_date, ht] at h
  · rfl

theorem findReportedMortgage_fst_eq_find (fz : String → String → Nat)
    (last4 : String) (nm : Value) :
    ∀ (ts : List Value) (det : List (String × Value)),
      (findReportedMortgage fz last4 nm ts det).1
        = ts.find? (fun t => tlMatches last4 t
            && decide (70 ≤ fuzzyScore fz (tlCreditor t) nm)) := by
  intro ts
  induction ts with
  | nil => intro det; rfl
  | cons t rest ih =>
    intro det
    by_cases hm : tlMatches last4 t = true
    · by_cases hs : 70 ≤ fuzzyScore fz (tlCreditor t) nm
      · simp [findReportedMortgage, hm, hs, List.find?_cons]
      · simp [findReportedMortgage, hm, hs, List.find?_cons, ih]
    · have hm' : tlMatches last4 t = false := by
        cases h : tlMatches last4 t
        · rfl
        · exact absurd h hm
      simp [findReportedMortgage, hm', List.find?_cons, ih]

/-- C7 fails as stated: the claim says a tradeline matches when the last 4
characters of its account number equal the last 4 of the liability account
number, but the code additionally requires both (sliced) account numbers to
be truthy — with an empty liability account number and an equally empty
tradeline account number the last-4 slices are equal (both empty), the
creditor name matches the liability name with similarity 100 ≥ 70, and both
dates parse with 120 > 12 months between them, so the claim predicts the
tradeline is accepted and the verdict is PASS; the validator instead treats
the mortgage as not reported and returns ALERT. -/
theorem c7_cashout_counterexample :
    strLast4 (pyStr (cashoutLiabAcc c7Cfg c7Ctx)) = strLast4 (pyStr (tlAccNo c7Tl))
    ∧ 70 ≤ fuzzyScore fzEq (tlCreditor c7Tl) (cashoutLiabName c7Cfg c7Ctx)
    ∧ cashoutTradelines c7Ctx = [c7Tl]
    ∧ parse_date (objGetD c7Tl "Date_Opened") = some ⟨2010, 1, 1⟩
    ∧ parse_date (resolve c7Cfg c7Ctx "los" "estimated_closing_date") = some ⟨2020, 1, 1⟩
    ∧ 12 < monthsDiff ⟨2010, 1, 1⟩ ⟨2020, 1, 1⟩
    ∧ (cashoutSeasoningEval fzEq c7Cfg c7Rule c7Ctx).status = "ALERT" := by
  exact ⟨rfl, by decide, rfl, rfl, rfl, by decide, rfl⟩

/-- C7 (amended).  CashoutSeasoning validator: no (truthy) tradelines is
NOT_APPLICABLE.  Otherwise the accepted tradeline is the first whose
account-number match succeeds — which requires both the liability and
tradeline last-4 slices to be non-empty (falsy account numbers never match)
and equal — with creditor-name similarity to the liability name at least 70.
If none is accepted, the verdict is ALERT; if the accepted tradeline's open
date or the estimated closing date is missing or unparseable, the verdict is
NOT_APPLICABLE; otherwise it is ALERT when the months between open and
closing date are at most 12 and PASS when they exceed 12. -/
theorem c7_cashout_amended :
    ∀ (fz : String → String → Nat) (cfg : FieldsCfg) (rule : Rule) (ctx : Context),
      (truthy (tradelinesRaw ctx) = false →
        (cashoutSeasoningEval fz cfg rule ctx).status = "NOT_APPLICABLE")
      ∧ cashoutAccepted fz cfg ctx
          = (cashoutTradelines ctx).find? (fun t => tlMatches (cashoutLast4 cfg ctx) t
              && decide (70 ≤ fuzzyScore fz (tlCreditor t) (cashoutLiabName cfg ctx)))
      ∧ (truthy (tradelinesRaw ctx) = true →
          (cashoutAccepted fz cfg ctx = none →
            (cashoutSeasoningEval fz cfg rule ctx).status = "ALERT")
          ∧ (∀ t, cashoutAccepted fz cfg ctx = some t →
              ((truthy (objGetD t "Date_Opened") = false
                  ∨ truthy (resolve cfg ctx "los" "estimated_closing_date") = false
                  ∨ parse_date (objGetD t "Date_Opened") = none
                  ∨ parse_date (resolve cfg ctx "los" "estimated_closing_date") = none) →
                (cashoutSeasoningEval fz cfg rule ctx).status = "NOT_APPLICABLE")
              ∧ (∀ dO dC, parse_date (objGetD t "Date_Opened") = some dO →
                  parse_date (resolve cfg ctx "los" "estimated_closing_date") = some dC →
                  (monthsDiff dO dC ≤ 12 →
                    (cashoutSeasoningEval fz cfg rule ctx).status = "ALERT")
                  ∧ (12 < monthsDiff dO dC →
                    (cashoutSeasoningEval fz cfg rule ctx).status = "PASS")))) := by
  intro fz cfg rule ctx
  refine ⟨?_, ?_, ?_⟩
  · intro h
    simp [cashoutSeasoningEval, h, notApplicableResult]
  · simpa [cashoutAccepted] using
      findReportedMortgage_fst_eq_find fz (cashoutLast4 cfg ctx) (cashoutLiabName cfg ctx)
        (cashoutTradelines ctx) (cashoutDetails0 cfg ctx)
  · intro htl
    constructor
    · intro hacc
      rcases hp : findReportedMortgage fz (cashoutLast4 cfg ctx) (cashoutLiabName cfg ctx)
          (cashoutTradelines ctx) (cashoutDetails0 cfg ctx) with ⟨fst, det⟩
      have hfst : fst = none := by
        have h := hacc
        simp only [cashoutAccepted, hp] at h
        exact h
      subst hfst
      simp [cashoutSeasoningEval, htl, hp, alertResult]
    · intro t hacc
      rcases hp : findReportedMortgage fz (cashoutLast4 cfg ctx) (cashoutLiabName cfg ctx)
          (cashoutTradelines ctx) (cashoutDetails0 cfg ctx) with ⟨fst, det⟩
      have hfst : fst = some t := by
        have h := hacc
        simp only [cashoutAccepted, hp] at h
        exact h
      subst hfst
      constructor
      · intro hd
        by_cases h1 : truthy (objGetD t "Date_Opened") = true
        · by_cases h2 : truthy (resolve cfg ctx "los" "estimated_closing_date") = true
          · rcases hd with h | h | h | h
            · rw [h1] at h; exact absurd h (by decide)
            · rw [h2] at h; exact absurd h (by decide)
            · cases hpe : parse_date (resolve cfg ctx "los" "estimated_closing_date") <;>
                simp [cashoutSeasoningEval, htl, hp, h1, h2, h, hpe, notApplicableResult]
            · cases hpo : parse_date (objGetD t "Date_Opened") <;>
                simp [cashoutSeasoningEval, htl, hp, h1, h2, h, hpo, notApplicableResult]
          · have h2' : truthy (resolve cfg ctx "los" "estimated_closing_date") = false :=
              by cases h : truthy (resolve cfg ctx "los" "estimated_closing_date")
                 · rfl
                 · exact absurd h h2
            simp [cashoutSeasoningEval, htl, hp, h2', notApplicableResult]
        · have h1' : truthy (objGetD t "Date_Opened") = false := by
            cases h : truthy (objGetD t "Date_Opened")
            · rfl
            · exact absurd h h1
          simp [cashoutSeasoningEval, htl, hp, h1', notApplicableResult]
      · intro dO dC hpo hpc
        have t1 := truthy_of_parse_date hpo
        have t2 := truthy_of_parse_date hpc
        constructor
        · intro hle
          simp [cashoutSeasoningEval, htl, hp, t1, t2, hpo, hpc, hle, alertResult]
        · intro hgt
          simp [cashoutSeasoningEval, htl, hp, t1, t2, hpo, hpc,
            Nat.not_le.mpr hgt, passResult]

/-- Witness for the amended C7: a matching last-4 account number with an
exactly matching creditor name opened 24 months before closing passes. -/
theorem c7_cashout_amended_witness :
    cashoutAccepted fzEq c7Cfg c7CtxW = some c7TlW
    ∧ (cashoutSeasoningEval fzEq c7Cfg c7Rule c7CtxW).status = "PASS" := by
  constructor
  · rfl
  · have h := ((c7_cashout_amended fzEq c7Cfg c7Rule c7CtxW).2.2 rfl).2 c7TlW rfl
    exact (h.2 ⟨2019, 1, 1⟩ ⟨2021, 1, 1⟩ rfl rfl).2 (by decide)

end LppSpec
